import Mathlib

/-!
Verification of the persona-analysis pipeline of `tobasummandal/global-dialogues`
(`ai-personas-website/persona_analysis.py`), shallowly embedded in Lean 4.

Python floats are idealised as rationals (`ℚ`).  Calls into external
libraries whose numeric output is not computed by this repository's code
(TextBlob sentiment polarity, `np.std`, scikit-learn's KMeans labelling,
silhouette scoring and StandardScaler column transform) are modelled as
components of an explicit `ExtLib` record threaded through the pipeline, so
every theorem quantifies over their behaviour; the control flow, guards,
defaults, error conditions and arithmetic performed by the repository's own
code are translated directly from the source.
-/

/-- One row of a round's binary-vote table (`GD{n}_binary.csv`):
a participant identifier and the raw vote string (`'Agree'`, `'Disagree'`, ...). -/
structure VoteRecord where
  participant_id : String
  vote : String
deriving DecidableEq, Repr

/-- One row of a round's verbatim table (`GD{n}_verbatim_map.csv`):
a participant identifier and the `Thought Text` cell, `none` standing for a
missing (`NaN`) cell. -/
structure TextRecord where
  participant_id : String
  text : Option String
deriving DecidableEq, Repr

/-- The per-round data bundle assembled by `load_data` and consumed by
`engineer_features`.  The `aggregate` and `participants` tables are loaded by
the source but never read by the downstream stages, so they are omitted. -/
structure RoundData where
  binary : List VoteRecord
  verbatim : List TextRecord
deriving DecidableEq, Repr

/-- External library behaviour the pipeline calls into, as explicit
deterministic functions.  `kmeans` takes the ambient process entropy (what an
unseeded run would consume), the `random_state` argument, `n_clusters`, and the
data matrix, returning one label per row; `n_init=10` is folded into the
function's determinism.  `std` models `np.std` (population standard deviation,
computed in floating point), `sentiment` models `TextBlob(...).sentiment.polarity`,
`silhouette` models `sklearn.metrics.silhouette_score`, and `scale` models the
column transform applied by a fitted `StandardScaler`. -/
structure ExtLib where
  sentiment : String → ℚ
  std : List ℚ → ℚ
  kmeans : Nat → Option Nat → Nat → List (List ℚ) → List Nat
  silhouette : List (List ℚ) → List Nat → ℚ
  scale : List (List ℚ) → List (List ℚ)

/-- Errors raised by the library calls the pipeline makes.  `valueError`
models scikit-learn's `ValueError`s; `keyError` models the pandas `KeyError`
raised when selecting absent columns from a DataFrame.
`insufficientDataError` is *modelled from the spec*: the spec names an
`InsufficientDataError` for the too-few-participants case, but no such class
exists anywhere in the source; the constructor exists only so that
statements about it can be made. -/
inductive PyError where
  | valueError (msg : String)
  | keyError (msg : String)
  | insufficientDataError
deriving DecidableEq, Repr

/-- Helper for `uniqueFirst`: keep the elements not yet `seen`, first
occurrences in order. -/
def uniqueFirstAux {α : Type} [DecidableEq α] (seen : List α) : List α → List α
  | [] => []
  | a :: l =>
    if a ∈ seen then uniqueFirstAux seen l
    else a :: uniqueFirstAux (a :: seen) l

/-- Order-preserving first-occurrence deduplication, the behaviour of
`pandas.Series.unique()` used at `binary_df['Participant ID'].unique()` and
`features_df['cluster'].unique()`. -/
def uniqueFirst {α : Type} [DecidableEq α] (l : List α) : List α :=
  uniqueFirstAux [] l

/-- Number of whitespace-separated words, the behaviour of
`len(str(text).split())`. -/
def countWords (s : String) : Nat :=
  ((s.split Char.isWhitespace).filter (fun w => decide (w ≠ ""))).length

/-- The usable texts of a participant: the cells that are not `NaN` and not
whitespace-only, the rows passing `pd.notna(text) and text.strip()`. -/
def usableTexts (ptexts : List TextRecord) : List String :=
  ptexts.filterMap fun t =>
    match t.text with
    | none => none
    | some s => if s.trim ≠ "" then some s else none

/-- Encoding `[1 if v == 'Agree' else 0 for v in participant_votes['Vote']]`. -/
def encodeVotes (votes : List String) : List ℚ :=
  votes.map fun v => if v = "Agree" then (1 : ℚ) else 0

/-- Line 123 of the source:
`1 - (np.std([1 if v == 'Agree' else 0 ...]) if total_votes > 1 else 0)`,
parametric in the library's standard-deviation routine. -/
def voteConsistency (stdFn : List ℚ → ℚ) (votes : List String) : ℚ :=
  1 - (if votes.length > 1 then stdFn (encodeVotes votes) else 0)

/-- Modelled from the spec: `vote_consistency` is "1 − standard deviation of
the participant's votes encoded as {Agree→1, other→0}; defined as 1 (maximal
consistency) when fewer than two votes exist". -/
def voteConsistencySpec (stdFn : List ℚ → ℚ) (votes : List String) : ℚ :=
  if votes.length < 2 then 1 else 1 - stdFn (encodeVotes votes)

/-- The feature dictionary appended per participant by `engineer_features`. -/
structure FeatureRow where
  participant_id : String
  consensus_alignment : ℚ
  participation_level : ℚ
  avg_sentiment : ℚ
  avg_text_length : ℚ
  vote_consistency : ℚ
  engagement_depth : ℚ
  text_contributions : Nat
deriving DecidableEq, Repr

/-- The per-participant body of the loop in `engineer_features` (lines 88-137):
filters the round's vote and text tables down to `participant_id` and computes
the six features plus the raw text-contribution count, with the source's
division-guard defaults and `min(·/100, 1)` normalisations. -/
def mkRow (ext : ExtLib) (binary : List VoteRecord) (verbatim : List TextRecord)
    (pid : String) : FeatureRow :=
  let pvotes := binary.filter (fun v => decide (v.participant_id = pid))
  let ptexts := verbatim.filter (fun t => decide (t.participant_id = pid))
  let agree := (pvotes.filter (fun v => decide (v.vote = "Agree"))).length
  let total := pvotes.length
  let usable := usableTexts ptexts
  let sentiments := usable.map ext.sentiment
  let lengths := usable.map countWords
  { participant_id := pid
    consensus_alignment := if total > 0 then (agree : ℚ) / total else 1/2
    participation_level := min ((total + ptexts.length : ℚ) / 100) 1
    avg_sentiment := if sentiments ≠ [] then sentiments.sum / sentiments.length else 0
    avg_text_length :=
      if lengths ≠ [] then
        min (((lengths.map (fun n : ℕ => (n : ℚ))).sum / lengths.length) / 100) 1
      else min (0 / 100) 1
    vote_consistency := voteConsistency ext.std (pvotes.map VoteRecord.vote)
    engagement_depth := if total > 0 then (ptexts.length : ℚ) / total else 0
    text_contributions := ptexts.length }

/-- `engineer_features` (lines 75-143): for each loaded round, enumerates the
distinct participant ids of that round's vote table (in first-occurrence
order) and emits one feature row per id.  The per-participant `try/except` is
not modelled because every modelled operation is total. -/
def engineerFeatures (ext : ExtLib) (rounds : List RoundData) : List FeatureRow :=
  rounds.flatMap fun r =>
    (uniqueFirst (r.binary.map VoteRecord.participant_id)).map
      (mkRow ext r.binary r.verbatim)

/-- The variant of `mkRow` with the two `total_votes > 0` guard defaults
removed, dividing unconditionally (`ℚ` division by zero yields `0`, not the
source's `0.5` for `consensus_alignment`).  Used to state that the guard
defaults are unreachable from `engineer_features`. -/
def mkRowNoDefault (ext : ExtLib) (binary : List VoteRecord)
    (verbatim : List TextRecord) (pid : String) : FeatureRow :=
  let pvotes := binary.filter (fun v => decide (v.participant_id = pid))
  let ptexts := verbatim.filter (fun t => decide (t.participant_id = pid))
  let agree := (pvotes.filter (fun v => decide (v.vote = "Agree"))).length
  let total := pvotes.length
  let usable := usableTexts ptexts
  let sentiments := usable.map ext.sentiment
  let lengths := usable.map countWords
  { participant_id := pid
    consensus_alignment := (agree : ℚ) / total
    participation_level := min ((total + ptexts.length : ℚ) / 100) 1
    avg_sentiment := if sentiments ≠ [] then sentiments.sum / sentiments.length else 0
    avg_text_length :=
      if lengths ≠ [] then
        min (((lengths.map (fun n : ℕ => (n : ℚ))).sum / lengths.length) / 100) 1
      else min (0 / 100) 1
    vote_consistency := voteConsistency ext.std (pvotes.map VoteRecord.vote)
    engagement_depth := (ptexts.length : ℚ) / total
    text_contributions := ptexts.length }

/-- `engineer_features` recomputed through `mkRowNoDefault`. -/
def engineerFeaturesNoDefault (ext : ExtLib) (rounds : List RoundData) :
    List FeatureRow :=
  rounds.flatMap fun r =>
    (uniqueFirst (r.binary.map VoteRecord.participant_id)).map
      (mkRowNoDefault ext r.binary r.verbatim)

/-- The column order of `feature_columns` in `perform_clustering` (lines
163-164), turning one feature row into one row of the matrix `X`. -/
def toVector (row : FeatureRow) : List ℚ :=
  [row.consensus_alignment, row.participation_level, row.avg_sentiment,
   row.avg_text_length, row.vote_consistency, row.engagement_depth]

/-- `KMeans(n_clusters=k, random_state=rs, n_init=10).fit_predict(X)`:
scikit-learn raises a `ValueError` when the matrix has no rows or fewer rows
than the requested number of clusters; otherwise the (seeded, deterministic)
labelling is produced by the library. -/
def kmFit (ext : ExtLib) (entropy : Nat) (randomState : Option Nat) (k : Nat)
    (X : List (List ℚ)) : Except PyError (List Nat) :=
  if X.length = 0 then
    .error (.valueError "Found array with 0 samples")
  else if X.length < k then
    .error (.valueError "n_samples should be >= n_clusters")
  else
    .ok (ext.kmeans entropy randomState k X)

/-- `silhouette_score(X, labels)`: scikit-learn raises a `ValueError` unless
the number of distinct labels lies in `[2, n_samples - 1]`. -/
def silhouetteChecked (ext : ExtLib) (X : List (List ℚ)) (labels : List Nat) :
    Except PyError ℚ :=
  let nl := (uniqueFirst labels).length
  if 2 ≤ nl ∧ nl ≤ X.length - 1 then .ok (ext.silhouette X labels)
  else .error (.valueError "Number of labels is not valid")

/-- The loop body of `find_optimal_clusters` for one candidate `k`: fit
KMeans with `random_state=42` and score the labelling. -/
def scoreForK (ext : ExtLib) (entropy : Nat) (X : List (List ℚ)) (k : Nat) :
    Except PyError (Nat × ℚ) := do
  let labels ← kmFit ext entropy (some 42) k X
  let s ← silhouetteChecked ext X labels
  pure (k, s)

/-- Python's `max(scores, key=lambda x: x[1])` starting from a first element:
a later element replaces the current best only when its key is strictly
greater, so the first maximal element wins. -/
def pyMaxBySnd (a : Nat × ℚ) (l : List (Nat × ℚ)) : Nat × ℚ :=
  l.foldl (fun best p => if p.2 > best.2 then p else best) a

/-- `find_optimal_clusters` (lines 145-158): scores every candidate
`k ∈ range(2, max_k + 1)` and returns the first score-maximising `k` together
with the score list.  A library error at any candidate propagates (the Python
exception aborts the loop); `max` on an empty candidate list raises. -/
def findOptimalClusters (ext : ExtLib) (entropy : Nat) (X : List (List ℚ))
    (maxK : Nat) : Except PyError (Nat × List (Nat × ℚ)) := do
  let scores ← (List.range' 2 (maxK - 1)).mapM (scoreForK ext entropy X)
  match scores with
  | [] => .error (.valueError "max() arg is an empty sequence")
  | a :: t => pure ((pyMaxBySnd a t).1, scores)

/-- `StandardScaler().fit_transform(X)`: raises a `ValueError` on an empty
matrix, otherwise applies the fitted column transform. -/
def fitTransform (ext : ExtLib) (X : List (List ℚ)) :
    Except PyError (List (List ℚ)) :=
  if X.length = 0 then .error (.valueError "Found array with 0 samples")
  else .ok (ext.scale X)

/-- `X = features_df[feature_columns].values` (line 166): selecting the six
feature columns from the frame built by `pd.DataFrame(all_features)`.  When
the feature list is empty that frame has no columns at all, and pandas raises
a `KeyError` (`"None of [...] are in the [columns]"`); otherwise every column
exists and the matrix is built row-wise in the fixed column order. -/
def selectFeatureColumns (rows : List FeatureRow) :
    Except PyError (List (List ℚ)) :=
  if rows.length = 0 then
    .error (.keyError "None of the feature columns are in the columns")
  else .ok (rows.map toVector)

/-- `perform_clustering` (lines 160-189): builds the matrix from the six
feature columns (raising the pandas `KeyError` on a columnless empty frame;
`np.nan_to_num` is the identity in the `ℚ` model, where no `NaN` arises),
standardises it, selects `best_k` via `find_optimal_clusters`, refits
`KMeans(n_clusters=best_k, random_state=42, n_init=10)`, and attaches one
label to each feature row positionally. -/
def performClustering (ext : ExtLib) (entropy : Nat) (rows : List FeatureRow) :
    Except PyError (List (FeatureRow × Nat)) := do
  let X ← selectFeatureColumns rows
  let Xs ← fitTransform ext X
  let bk ← findOptimalClusters ext entropy Xs 8
  let labels ← kmFit ext entropy (some 42) bk.1 Xs
  pure (rows.zip labels)

/-- `self.persona_names`, the fixed archetype list from `PersonaAnalyzer.__init__`. -/
def personaNames : List String :=
  ["The Optimistic Architect",
   "The Cautious Skeptic",
   "The Balanced Moderator",
   "The Deep Thinker",
   "The Pragmatic Realist"]

/-- Line 201 of the source:
`self.persona_names[cluster_id] if cluster_id < len(self.persona_names)
else f"Persona ..."` — index into the archetype list under the guard,
generic label otherwise. -/
def personaName (cluster_id : Nat) : String :=
  if h : cluster_id < personaNames.length then personaNames.get ⟨cluster_id, h⟩
  else "Persona " ++ toString cluster_id

/-- The mean of a list of rationals (`pandas.Series.mean()`); the profiler
only applies it to nonempty clusters. -/
def listMean (l : List ℚ) : ℚ := l.sum / l.length

/-- The `characteristics` sub-dictionary of one persona profile: per-feature
means over the cluster's rows, in original feature units. -/
structure Characteristics where
  consensus_alignment : ℚ
  participation_level : ℚ
  avg_sentiment : ℚ
  avg_text_length : ℚ
  vote_consistency : ℚ
  engagement_depth : ℚ
deriving DecidableEq, Repr

/-- `generate_persona_description` (lines 222-260): four independent
threshold rules, one trait phrase each, joined with `', '` into one sentence. -/
def generatePersonaDescription (c : Characteristics) : String :=
  let t1 := if c.consensus_alignment > 7/10 then "tends to agree with majority opinions"
    else if c.consensus_alignment < 3/10 then "often dissents from popular views"
    else "maintains balanced perspective on issues"
  let t2 := if c.avg_sentiment > 2/10 then "expresses optimistic viewpoints"
    else if c.avg_sentiment < -2/10 then "takes cautious or critical stances"
    else "maintains neutral emotional tone"
  let t3 := if c.engagement_depth > 5/10 then "contributes detailed thoughts and analysis"
    else if c.engagement_depth < 2/10 then "prefers concise interactions"
    else "balances brevity with depth"
  let t4 := if c.participation_level > 8/10 then "highly active in discussions"
    else if c.participation_level < 4/10 then "selective in participation"
    else "moderately engaged"
  "This persona " ++ String.intercalate ", " [t1, t2, t3, t4] ++ "."

/-- One persona profile as built by `create_persona_profiles`. -/
structure Profile where
  id : Nat
  name : String
  size : Nat
  percentage : ℚ
  characteristics : Characteristics
  description : String
deriving DecidableEq, Repr

/-- The body of the cluster loop in `create_persona_profiles` for one
cluster id: its rows, size, share of the total, per-feature means and
threshold description. -/
def mkProfile (labeled : List (FeatureRow × Nat)) (cid : Nat) : Profile :=
  let cdata := (labeled.filter (fun r => decide (r.2 = cid))).map Prod.fst
  let c : Characteristics :=
    { consensus_alignment := listMean (cdata.map FeatureRow.consensus_alignment)
      participation_level := listMean (cdata.map FeatureRow.participation_level)
      avg_sentiment := listMean (cdata.map FeatureRow.avg_sentiment)
      avg_text_length := listMean (cdata.map FeatureRow.avg_text_length)
      vote_consistency := listMean (cdata.map FeatureRow.vote_consistency)
      engagement_depth := listMean (cdata.map FeatureRow.engagement_depth) }
  { id := cid
    name := personaName cid
    size := cdata.length
    percentage := (cdata.length : ℚ) / (labeled.length : ℚ) * 100
    characteristics := c
    description := generatePersonaDescription c }

/-- `create_persona_profiles` (lines 191-220): one profile per distinct value
of the `cluster` column, enumerated in first-occurrence order
(`features_df['cluster'].unique()`).  The source's dict keyed by cluster id
is modelled as the list of profiles in insertion order. -/
def createPersonaProfiles (labeled : List (FeatureRow × Nat)) : List Profile :=
  (uniqueFirst (labeled.map Prod.snd)).map (mkProfile labeled)

/-- The document written by `save_results` (lines 294-327): the persona
profiles keyed by the *string* of their cluster id (`str(k)`), the fixed
`feature_importance` glossary, and `total_participants = len(self.features)`.
The source's numeric coercions (`int(...)`, `float(...)`) are identities in
the model. -/
structure AnalysisResult where
  personas : List (String × Profile)
  feature_importance : List (String × String)
  total_participants : Nat
deriving DecidableEq, Repr

/-- The fixed `feature_importance` glossary of `save_results`. -/
def featureImportance : List (String × String) :=
  [("consensus_alignment", "How often participant agrees with majority"),
   ("participation_level", "Overall activity level in discussions"),
   ("avg_sentiment", "Emotional tone of contributions"),
   ("avg_text_length", "Typical length of written responses"),
   ("vote_consistency", "Consistency in voting patterns"),
   ("engagement_depth", "Ratio of thoughtful contributions to simple votes")]

/-- `save_results`: serialize the profiles (keys coerced to strings) together
with the glossary and the participant count taken from the stored feature
table. -/
def saveResults (labeled : List (FeatureRow × Nat)) (profiles : List Profile) :
    AnalysisResult :=
  { personas := profiles.map fun p => (toString p.id, p)
    feature_importance := featureImportance
    total_participants := labeled.length }

/-- The outcome of `main`: either the early clean return at
`if not data_list: return` ("No data loaded.", no result produced), or the
completed analysis with its exported result. -/
inductive PipelineOutcome where
  | aborted
  | completed (result : AnalysisResult)
deriving DecidableEq, Repr

/-- The pipeline of `main` (lines 329-373) after `load_data`: when no round
was loaded, `main` returns early without a result (`if not data_list:
return`); otherwise `engineer_features` → `perform_clustering` →
`create_persona_profiles` → `save_results`.  Any uncaught library exception
raised along the way aborts the run. -/
def runPipeline (ext : ExtLib) (entropy : Nat) (rounds : List RoundData) :
    Except PyError PipelineOutcome :=
  if rounds.isEmpty then .ok .aborted
  else do
    let rows := engineerFeatures ext rounds
    let labeled ← performClustering ext entropy rows
    let profiles := createPersonaProfiles labeled
    pure (.completed (saveResults labeled profiles))

/-- A concrete instantiation of the external-library record, used to evaluate
the pipeline at specific inputs: constant sentiment and standard deviation,
round-robin labelling that ignores both the entropy and the seed, constant
silhouette score, identity scaling. -/
def extLib0 : ExtLib :=
  { sentiment := fun _ => 0
    std := fun _ => 0
    kmeans := fun _ _ k X => (List.range X.length).map (fun i => i % k)
    silhouette := fun _ _ => 0
    scale := fun X => X }

/-- A concrete round whose vote table holds participants `p` and `q`. -/
def roundOne : RoundData :=
  { binary := [{ participant_id := "p", vote := "Agree" },
               { participant_id := "q", vote := "Disagree" }]
    verbatim := [] }

/-- A second concrete round whose vote table holds participant `p` again. -/
def roundTwo : RoundData :=
  { binary := [{ participant_id := "p", vote := "Disagree" }]
    verbatim := [] }

/-- A concrete feature row used to evaluate the profiler at a specific input. -/
def rowW : FeatureRow :=
  { participant_id := "w"
    consensus_alignment := 1
    participation_level := 1/50
    avg_sentiment := 0
    avg_text_length := 0
    vote_consistency := 1
    engagement_depth := 0
    text_contributions := 0 }

/-- A concrete 10-participant feature matrix used to evaluate cluster-count
selection at a specific input. -/
def X10 : List (List ℚ) := List.replicate 10 (List.replicate 6 0)

/-- The score list produced by `findOptimalClusters` on `X10` under
`extLib0`. -/
def scores0 : List (Nat × ℚ) := [(2, 0), (3, 0), (4, 0), (5, 0), (6, 0), (7, 0), (8, 0)]

/-! ### Helper lemmas -/

theorem mem_uniqueFirstAux {α : Type} [DecidableEq α] (l : List α) (seen : List α)
    (x : α) : x ∈ uniqueFirstAux seen l ↔ x ∈ l ∧ x ∉ seen := by
  induction l generalizing seen with
  | nil => simp [uniqueFirstAux]
  | cons a l ih =>
    by_cases h : a ∈ seen
    · simp only [uniqueFirstAux, if_pos h, ih, List.mem_cons]
      constructor
      · rintro ⟨hx, hs⟩; exact ⟨Or.inr hx, hs⟩
      · rintro ⟨hx | hx, hs⟩
        · exact absurd (hx ▸ h) hs
        · exact ⟨hx, hs⟩
    · simp only [uniqueFirstAux, if_neg h, List.mem_cons, ih, not_or]
      constructor
      · rintro (rfl | ⟨hx, hne, hs⟩)
        · exact ⟨Or.inl rfl, h⟩
        · exact ⟨Or.inr hx, hs⟩
      · rintro ⟨rfl | hx, hs⟩
        · exact Or.inl rfl
        · by_cases hxa : x = a
          · exact Or.inl hxa
          · exact Or.inr ⟨hx, hxa, hs⟩

theorem nodup_uniqueFirstAux {α : Type} [DecidableEq α] (l : List α)
    (seen : List α) : (uniqueFirstAux seen l).Nodup := by
  induction l generalizing seen with
  | nil => simp [uniqueFirstAux]
  | cons a l ih =>
    by_cases h : a ∈ seen
    · simpa [uniqueFirstAux, h] using ih seen
    · simp only [uniqueFirstAux, if_neg h, List.nodup_cons]
      exact ⟨fun hc => ((mem_uniqueFirstAux l _ a).1 hc).2 (List.mem_cons_self a _),
        ih (a :: seen)⟩

theorem mem_uniqueFirst {α : Type} [DecidableEq α] (l : List α) (x : α) :
    x ∈ uniqueFirst l ↔ x ∈ l := by
  simp [uniqueFirst, mem_uniqueFirstAux]

theorem nodup_uniqueFirst {α : Type} [DecidableEq α] (l : List α) :
    (uniqueFirst l).Nodup :=
  nodup_uniqueFirstAux l []

theorem uniqueFirst_perm_dedup {α : Type} [DecidableEq α] (l : List α) :
    List.Perm (uniqueFirst l) l.dedup := by
  refine (List.perm_ext_iff_of_nodup (nodup_uniqueFirst l) l.nodup_dedup).2 ?_
  intro a
  rw [mem_uniqueFirst, List.mem_dedup]

theorem sum_count_uniqueFirst {α : Type} [DecidableEq α] (L : List α) :
    ((uniqueFirst L).map (fun x => L.count x)).sum = L.length := by
  rw [((uniqueFirst_perm_dedup L).map (fun x => L.count x)).sum_eq]
  exact List.sum_map_count_dedup_eq_length L

theorem length_filter_eq_count {α β : Type} [DecidableEq β] (l : List (α × β))
    (b : β) :
    (l.filter (fun r => decide (r.2 = b))).length = (l.map Prod.snd).count b := by
  induction l with
  | nil => simp
  | cons a l ih =>
    by_cases h : a.2 = b <;> simp [h, ih, List.count_cons]

theorem length_filter_pid_pos (l : List VoteRecord) (p : String)
    (h : p ∈ l.map VoteRecord.participant_id) :
    0 < (l.filter (fun v => decide (v.participant_id = p))).length := by
  obtain ⟨v, hv, hpid⟩ := List.mem_map.1 h
  exact List.length_pos_of_mem (List.mem_filter.2 ⟨hv, by simp [hpid]⟩)

theorem map_pid_engineerFeatures (ext : ExtLib) (rounds : List RoundData) :
    (engineerFeatures ext rounds).map FeatureRow.participant_id
      = rounds.flatMap (fun r => uniqueFirst (r.binary.map VoteRecord.participant_id)) := by
  rw [engineerFeatures, List.map_flatMap]
  refine List.flatMap_congr ?_
  intro r _
  rw [List.map_map]
  exact List.map_id _

theorem exceptBind_ok {ε α β : Type} (a : α) (f : α → Except ε β) :
    (Except.ok a >>= f) = f a := rfl

theorem exceptBind_error {ε α β : Type} (e : ε) (f : α → Except ε β) :
    ((Except.error e : Except ε α) >>= f) = Except.error e := rfl

theorem exceptMap_ok {ε α β : Type} (a : α) (f : α → β) :
    (f <$> (Except.ok a : Except ε α)) = Except.ok (f a) := rfl

theorem exceptMap_error {ε α β : Type} (e : ε) (f : α → β) :
    (f <$> (Except.error e : Except ε α)) = Except.error e := rfl

theorem scoreForK_fst (ext : ExtLib) (entropy : Nat) (X : List (List ℚ))
    (k : Nat) (y : Nat × ℚ) (h : scoreForK ext entropy X k = .ok y) : y.1 = k := by
  rw [scoreForK] at h
  cases h1 : kmFit ext entropy (some 42) k X with
  | error e => rw [h1, exceptBind_error] at h; exact absurd h (by simp)
  | ok labels =>
    rw [h1, exceptBind_ok] at h
    cases h2 : silhouetteChecked ext X labels with
    | error e => rw [h2, exceptBind_error] at h; exact absurd h (by simp)
    | ok s =>
      rw [h2, exceptBind_ok] at h
      have : (k, s) = y := by exact Except.ok.inj h
      rw [← this]

theorem mapM_ok_map_fst {g : Nat → Except PyError (Nat × ℚ)}
    (hg : ∀ k y, g k = .ok y → y.1 = k) :
    ∀ (l : List Nat) (ys : List (Nat × ℚ)),
      l.mapM g = .ok ys → ys.map Prod.fst = l := by
  intro l
  induction l with
  | nil =>
    intro ys h
    have : ([] : List (Nat × ℚ)) = ys := Except.ok.inj h
    rw [← this]
    rfl
  | cons a l ih =>
    intro ys h
    rw [List.mapM_cons] at h
    cases ha : g a with
    | error e => rw [ha, exceptBind_error] at h; exact absurd h (by simp)
    | ok b =>
      rw [ha, exceptBind_ok] at h
      cases hl : l.mapM g with
      | error e =>
        rw [hl, exceptBind_error] at h
        exact absurd h (by simp)
      | ok bs =>
        rw [hl, exceptBind_ok] at h
        have : b :: bs = ys := Except.ok.inj h
        rw [← this]
        simp [hg a b ha, ih bs hl]

theorem pyMaxBySnd_spec :
    ∀ (l : List (Nat × ℚ)) (a : Nat × ℚ),
      (a :: l).Pairwise (fun p q => p.1 < q.1) →
      pyMaxBySnd a l ∈ a :: l ∧
      (∀ p ∈ a :: l, p.2 ≤ (pyMaxBySnd a l).2) ∧
      (∀ p ∈ a :: l, p.2 = (pyMaxBySnd a l).2 → (pyMaxBySnd a l).1 ≤ p.1) := by
  intro l
  induction l with
  | nil =>
    intro a _
    refine ⟨List.mem_cons_self a _, ?_, ?_⟩
    · intro p hp
      rcases List.mem_cons.1 hp with rfl | hp'
      · exact le_refl _
      · cases hp'
    · intro p hp _
      rcases List.mem_cons.1 hp with rfl | hp'
      · exact le_refl _
      · cases hp'
  | cons b t ih =>
    intro a hsorted
    have ha : ∀ p ∈ b :: t, a.1 < p.1 := (List.pairwise_cons.1 hsorted).1
    have hbt : (b :: t).Pairwise (fun p q => p.1 < q.1) :=
      (List.pairwise_cons.1 hsorted).2
    by_cases hc : b.2 > a.2
    · have hred : pyMaxBySnd a (b :: t) = pyMaxBySnd b t := by
        simp [pyMaxBySnd, List.foldl_cons, hc]
      obtain ⟨hmem, hmax, htie⟩ := ih b hbt
      rw [hred]
      have hb2 : b.2 ≤ (pyMaxBySnd b t).2 := hmax b (List.mem_cons_self b t)
      refine ⟨List.mem_cons_of_mem a hmem, ?_, ?_⟩
      · intro p hp
        rcases List.mem_cons.1 hp with rfl | hp'
        · exact le_of_lt (lt_of_lt_of_le hc hb2)
        · exact hmax p hp'
      · intro p hp hpe
        rcases List.mem_cons.1 hp with rfl | hp'
        · exact absurd hpe (ne_of_lt (lt_of_lt_of_le hc hb2))
        · exact htie p hp' hpe
    · have hred : pyMaxBySnd a (b :: t) = pyMaxBySnd a t := by
        simp [pyMaxBySnd, List.foldl_cons, hc]
      have hat : (a :: t).Pairwise (fun p q => p.1 < q.1) := by
        rw [List.pairwise_cons]
        exact ⟨fun p hp => ha p (List.mem_cons_of_mem b hp),
          (List.pairwise_cons.1 hbt).2⟩
      obtain ⟨hmem, hmax, htie⟩ := ih a hat
      rw [hred]
      have ha2 : a.2 ≤ (pyMaxBySnd a t).2 := hmax a (List.mem_cons_self a t)
      have hba : b.2 ≤ a.2 := not_lt.1 hc
      refine ⟨?_, ?_, ?_⟩
      · rcases List.mem_cons.1 hmem with he | hm
        · rw [he]; exact List.mem_cons_self a _
        · exact List.mem_cons_of_mem a (List.mem_cons_of_mem b hm)
      · intro p hp
        rcases List.mem_cons.1 hp with rfl | hp'
        · exact ha2
        · rcases List.mem_cons.1 hp' with rfl | hp''
          · exact le_trans hba ha2
          · exact hmax p (List.mem_cons_of_mem a hp'')
      · intro p hp hpe
        rcases List.mem_cons.1 hp with rfl | hp'
        · exact htie _ (List.mem_cons_self _ t) hpe
        · rcases List.mem_cons.1 hp' with rfl | hp''
          · have hap : a.2 = (pyMaxBySnd a t).2 :=
              le_antisymm ha2 (hpe ▸ hba)
            exact le_of_lt (lt_of_le_of_lt
              (htie a (List.mem_cons_self a t) hap) (ha _ (List.mem_cons_self _ t)))
          · exact htie p (List.mem_cons_of_mem a hp'') hpe

/-! ### Claim theorems -/

/-- C9: for every cluster label, the persona profile's name is the entry at
that index of the fixed five-element archetype name list when the label is
smaller than the list length, and otherwise is the generic string
`"Persona N"` with `N` the label (the naming function is total, so no index
error can occur); the profiler uses exactly this function, and cluster label
5 gets the name `"Persona 5"`. -/
theorem C9_persona_naming :
    (∀ (i : Nat) (h : i < personaNames.length),
        personaName i = personaNames.get ⟨i, h⟩) ∧
    (∀ i : Nat, personaNames.length ≤ i →
        personaName i = "Persona " ++ toString i) ∧
    (∀ (labeled : List (FeatureRow × Nat)) (cid : Nat),
        (mkProfile labeled cid).name = personaName cid) ∧
    personaNames.length = 5 ∧
    personaName 5 = "Persona 5" := by
  refine ⟨?_, ?_, fun _ _ => rfl, rfl, rfl⟩
  · intro i h
    rw [personaName, dif_pos h]
  · intro i h
    rw [personaName, dif_neg (Nat.not_lt.2 h)]

/-- Witness for C9: the naming theorem applied at concrete labels 2 and 7. -/
theorem C9_persona_naming_witness :
    personaName 2 = "The Balanced Moderator" ∧ personaName 7 = "Persona 7" :=
  ⟨(C9_persona_naming.1 2 (by decide)).trans rfl,
   (C9_persona_naming.2.1 7 (by decide)).trans rfl⟩

/-- C6: `vote_consistency` computed by the source agrees with the spec's
formula (1 minus the standard deviation of the Agree→1/other→0 encoding,
defined as 1 below two votes) for every standard-deviation routine and every
vote list; and every feature row of a participant with fewer than two votes
has `vote_consistency` exactly 1. -/
theorem C6_vote_consistency :
    (∀ (stdFn : List ℚ → ℚ) (votes : List String),
        voteConsistency stdFn votes = voteConsistencySpec stdFn votes) ∧
    (∀ (ext : ExtLib) (binary : List VoteRecord) (verbatim : List TextRecord)
        (pid : String),
        (binary.filter (fun v => decide (v.participant_id = pid))).length < 2 →
        (mkRow ext binary verbatim pid).vote_consistency = 1) := by
  have key : ∀ (stdFn : List ℚ → ℚ) (votes : List String),
      voteConsistency stdFn votes = voteConsistencySpec stdFn votes := by
    intro stdFn votes
    rw [voteConsistency, voteConsistencySpec]
    by_cases h : votes.length < 2
    · rw [if_pos h, if_neg (by omega)]
      ring
    · rw [if_neg h, if_pos (by omega)]
  refine ⟨key, ?_⟩
  intro ext binary verbatim pid h
  show voteConsistency ext.std _ = 1
  rw [key, voteConsistencySpec, if_pos (by simpa using h)]

/-- Witness for C6: a participant with a single vote has consistency 1, by
the theorem at a concrete input. -/
theorem C6_vote_consistency_witness :
    (mkRow extLib0 [{ participant_id := "p", vote := "Agree" }] [] "p").vote_consistency = 1 :=
  C6_vote_consistency.2 extLib0 _ [] "p" (by decide)

/-- C1 fails on the code: participant `p` votes in the vote tables of both
loaded rounds and receives two feature rows, because `engineer_features`
deduplicates participant ids only within one round. -/
theorem C1_counterexample :
    "p" ∈ roundOne.binary.map VoteRecord.participant_id ∧
    "p" ∈ roundTwo.binary.map VoteRecord.participant_id ∧
    1 < ((engineerFeatures extLib0 [roundOne, roundTwo]).map
          FeatureRow.participant_id).count "p" := by
  refine ⟨by decide, by decide, ?_⟩
  decide

/-- C1 (amended): the feature set contains exactly one row per distinct
participant id *per loaded round*: the number of feature rows carrying a
given participant id equals the number of loaded rounds whose vote table
mentions that id. -/
theorem C1_one_row_per_round (ext : ExtLib) (rounds : List RoundData)
    (p : String) :
    ((engineerFeatures ext rounds).map FeatureRow.participant_id).count p
      = (rounds.filter
          (fun r => decide (p ∈ r.binary.map VoteRecord.participant_id))).length := by
  rw [map_pid_engineerFeatures, List.count_flatMap]
  induction rounds with
  | nil => simp
  | cons r rs ih =>
    rw [List.map_cons, List.sum_cons, List.filter_cons, Function.comp_apply]
    by_cases h : p ∈ r.binary.map VoteRecord.participant_id
    · have h1 : (uniqueFirst (r.binary.map VoteRecord.participant_id)).count p = 1 :=
        List.count_eq_one_of_mem (nodup_uniqueFirst _) ((mem_uniqueFirst _ _).2 h)
      rw [h1, if_pos (by simp [h]), List.length_cons, ih]
      omega
    · have h0 : (uniqueFirst (r.binary.map VoteRecord.participant_id)).count p = 0 :=
        List.count_eq_zero_of_not_mem (fun hc => h ((mem_uniqueFirst _ _).1 hc))
      rw [h0, if_neg (by simp [h]), ih]
      omega

theorem mkRow_eq_noDefault (ext : ExtLib) (binary : List VoteRecord)
    (verbatim : List TextRecord) (pid : String)
    (h : 0 < (binary.filter (fun v => decide (v.participant_id = pid))).length) :
    mkRow ext binary verbatim pid = mkRowNoDefault ext binary verbatim pid := by
  simp only [mkRow, mkRowNoDefault]
  rw [if_pos h, if_pos h]

/-- C10: every feature row derives from a participant with at least one vote
in that round's vote table.  `engineer_features` coincides with its variant
that drops the two zero-vote default branches (`consensus_alignment = 0.5`,
`engagement_depth = 0`), so those branches are unreachable; every emitted row
has a positive vote count in some loaded round; and a participant id with no
vote in any round (in particular a text-only contributor) receives no feature
row — hence is excluded from `total_participants`, which counts feature rows. -/
theorem C10_rows_from_voters (ext : ExtLib) (rounds : List RoundData) :
    engineerFeatures ext rounds = engineerFeaturesNoDefault ext rounds ∧
    (∀ row ∈ engineerFeatures ext rounds, ∃ r ∈ rounds,
        0 < (r.binary.filter
              (fun v => decide (v.participant_id = row.participant_id))).length) ∧
    (∀ p : String, (∀ r ∈ rounds, p ∉ r.binary.map VoteRecord.participant_id) →
        p ∉ (engineerFeatures ext rounds).map FeatureRow.participant_id) := by
  refine ⟨?_, ?_, ?_⟩
  · rw [engineerFeatures, engineerFeaturesNoDefault]
    refine List.flatMap_congr ?_
    intro r _
    refine List.map_congr_left ?_
    intro pid hpid
    exact mkRow_eq_noDefault ext r.binary r.verbatim pid
      (length_filter_pid_pos _ _ ((mem_uniqueFirst _ _).1 hpid))
  · intro row hrow
    rw [engineerFeatures] at hrow
    obtain ⟨r, hr, hmem⟩ := List.mem_flatMap.1 hrow
    obtain ⟨pid, hpid, rfl⟩ := List.mem_map.1 hmem
    exact ⟨r, hr, length_filter_pid_pos _ _ ((mem_uniqueFirst _ _).1 hpid)⟩
  · intro p hp hmem
    rw [map_pid_engineerFeatures] at hmem
    obtain ⟨r, hr, hmem'⟩ := List.mem_flatMap.1 hmem
    exact hp r hr ((mem_uniqueFirst _ _).1 hmem')

/-- Witness for C10: the theorem applied to a concrete round — the default
branches are dropped, the row of participant `p` has a vote, and the absent
id `z` gets no row. -/
theorem C10_rows_from_voters_witness :
    engineerFeatures extLib0 [roundOne] = engineerFeaturesNoDefault extLib0 [roundOne] ∧
    (∃ r ∈ [roundOne], 0 < (r.binary.filter
        (fun v => decide (v.participant_id = "p"))).length) ∧
    "z" ∉ (engineerFeatures extLib0 [roundOne]).map FeatureRow.participant_id := by
  refine ⟨(C10_rows_from_voters extLib0 [roundOne]).1, ?_, ?_⟩
  · have hmem : mkRow extLib0 roundOne.binary roundOne.verbatim "p"
        ∈ engineerFeatures extLib0 [roundOne] := by
      show mkRow extLib0 roundOne.binary roundOne.verbatim "p"
        ∈ [mkRow extLib0 roundOne.binary roundOne.verbatim "p",
           mkRow extLib0 roundOne.binary roundOne.verbatim "q"]
      exact List.mem_cons_self _ _
    exact (C10_rows_from_voters extLib0 [roundOne]).2.1 _ hmem
  · exact (C10_rows_from_voters extLib0 [roundOne]).2.2 "z" (by decide)

/-- C7: `participation_level` is exactly
`min((total votes + total text contributions) / 100, 1)`; both
`participation_level` and `avg_text_length` lie in `[0, 1]` for every input;
and `participation_level` saturates at exactly 1 as soon as the raw counts
reach the calibration constant 100 (in particular for 10,000 votes). -/
theorem C7_saturating_normalisation (ext : ExtLib) (binary : List VoteRecord)
    (verbatim : List TextRecord) (pid : String) :
    ((mkRow ext binary verbatim pid).participation_level =
      min ((((binary.filter (fun v => decide (v.participant_id = pid))).length : ℚ) +
            ((verbatim.filter (fun t => decide (t.participant_id = pid))).length : ℚ)) / 100) 1) ∧
    0 ≤ (mkRow ext binary verbatim pid).participation_level ∧
    (mkRow ext binary verbatim pid).participation_level ≤ 1 ∧
    0 ≤ (mkRow ext binary verbatim pid).avg_text_length ∧
    (mkRow ext binary verbatim pid).avg_text_length ≤ 1 ∧
    (100 ≤ (binary.filter (fun v => decide (v.participant_id = pid))).length →
      (mkRow ext binary verbatim pid).participation_level = 1) := by
  have a0 : (0:ℚ) ≤ ((binary.filter (fun v => decide (v.participant_id = pid))).length : ℚ) :=
    Nat.cast_nonneg _
  have b0 : (0:ℚ) ≤ ((verbatim.filter (fun t => decide (t.participant_id = pid))).length : ℚ) :=
    Nat.cast_nonneg _
  have hs : ∀ l : List ℕ, (0:ℚ) ≤ (l.map (fun n : ℕ => (n : ℚ))).sum := by
    intro l
    refine List.sum_nonneg ?_
    intro x hx
    obtain ⟨n, hn, hxe⟩ := List.mem_map.1 hx
    rw [← hxe]
    exact Nat.cast_nonneg n
  refine ⟨rfl, ?_, ?_, ?_, ?_, ?_⟩
  · exact le_min (by positivity) (by norm_num)
  · exact min_le_right _ _
  · show (0:ℚ) ≤ if _ ≠ ([] : List ℕ) then _ else min ((0:ℚ) / 100) 1
    split
    · refine le_min ?_ (by norm_num)
      have := hs ((usableTexts (verbatim.filter
          (fun t => decide (t.participant_id = pid)))).map countWords)
      positivity
    · norm_num
  · show (if _ ≠ ([] : List ℕ) then min _ 1 else min ((0:ℚ) / 100) 1) ≤ 1
    split
    · exact min_le_right _ _
    · norm_num
  · intro h
    show min _ 1 = (1 : ℚ)
    refine min_eq_right ?_
    have h100 : (100:ℚ) ≤ ((binary.filter (fun v => decide (v.participant_id = pid))).length : ℚ) := by
      exact_mod_cast h
    rw [le_div_iff₀ (by norm_num : (0:ℚ) < 100)]
    linarith

/-- Witness for C7: a participant with 10,000 votes has
`participation_level` exactly 1, via the theorem at that input. -/
theorem C7_saturating_normalisation_witness :
    (mkRow extLib0 (List.replicate 10000 { participant_id := "p", vote := "Agree" })
        [] "p").participation_level = 1 := by
  refine (C7_saturating_normalisation extLib0 _ [] "p").2.2.2.2.2 ?_
  have : (List.replicate 10000 (⟨"p", "Agree"⟩ : VoteRecord)).filter
      (fun v => decide (v.participant_id = "p"))
      = List.replicate 10000 (⟨"p", "Agree"⟩ : VoteRecord) := by
    rw [List.filter_replicate, if_pos (by decide)]
  rw [this, List.length_replicate]
  norm_num

/-- C3 fails on the code: a loaded round with a text contribution but no
votes yields zero participants, and the pipeline aborts with the pandas
`KeyError` raised at `features_df[feature_columns]` on the columnless empty
frame (line 166), instead of completing with an empty `AnalysisResult`. -/
theorem C3_counterexample :
    runPipeline extLib0 0
        [{ binary := [],
           verbatim := [{ participant_id := "t", text := some "hello" }] }]
      = .error (.keyError "None of the feature columns are in the columns") := by
  rfl

/-- C3 (amended): with at least one loaded round but zero participants, the
downstream stages do not complete — selecting the six feature columns from
the columnless empty frame raises a pandas `KeyError` (line 166), which
propagates out of the pipeline, so no (empty) `AnalysisResult` is produced.
(With no loaded round at all, `main` instead returns early at
`if not data_list: return`, also producing no result.) -/
theorem C3_zero_participants_error (ext : ExtLib) (entropy : Nat)
    (rounds : List RoundData) (hne : rounds ≠ [])
    (h : engineerFeatures ext rounds = []) :
    runPipeline ext entropy rounds
      = .error (.keyError "None of the feature columns are in the columns") := by
  have hb : rounds.isEmpty = false := by
    cases rounds with
    | nil => exact absurd rfl hne
    | cons a l => rfl
  rw [runPipeline, if_neg (by simp [hb])]
  rw [h]
  rfl

/-- Witness for C3 (amended): the theorem at a concrete single loaded round
whose vote table is empty, so the feature set is empty. -/
theorem C3_zero_participants_error_witness :
    runPipeline extLib0 0 [{ binary := [], verbatim := [] }]
      = .error (.keyError "None of the feature columns are in the columns") :=
  C3_zero_participants_error extLib0 0 [{ binary := [], verbatim := [] }]
    (by simp) rfl

/-- C2 fails on the code: on an empty feature matrix cluster-count selection
raises scikit-learn's `ValueError`, not the spec's `InsufficientDataError`
(no such class exists in the source). -/
theorem C2_counterexample :
    findOptimalClusters extLib0 0 [] 8
        = .error (.valueError "Found array with 0 samples") ∧
    findOptimalClusters extLib0 0 [] 8 ≠ .error .insufficientDataError := by
  refine ⟨rfl, ?_⟩
  intro hcon
  rw [show findOptimalClusters extLib0 0 [] 8
      = Except.error (PyError.valueError "Found array with 0 samples") from rfl] at hcon
  exact PyError.noConfusion (Except.error.inj hcon)

/-- C2 (amended): with fewer than the minimum candidate `k = 2` participants,
cluster-count selection does fail and the failure is surfaced to the caller,
but as a `ValueError` raised by the first `KMeans` fit, not as an
`InsufficientDataError`. -/
theorem C2_too_few_participants (ext : ExtLib) (entropy : Nat)
    (X : List (List ℚ)) (h : X.length < 2) :
    findOptimalClusters ext entropy X 8
        = .error (.valueError "Found array with 0 samples") ∨
    findOptimalClusters ext entropy X 8
        = .error (.valueError "n_samples should be >= n_clusters") := by
  match X with
  | [] => exact Or.inl rfl
  | [x] => exact Or.inr rfl
  | x :: y :: t => exact absurd h (by simp)

/-- Witness for C2 (amended): the theorem at a concrete one-participant
matrix. -/
theorem C2_too_few_participants_witness :
    findOptimalClusters extLib0 0 [[1, 0, 0, 0, 0, 0]] 8
        = .error (.valueError "Found array with 0 samples") ∨
    findOptimalClusters extLib0 0 [[1, 0, 0, 0, 0, 0]] 8
        = .error (.valueError "n_samples should be >= n_clusters") :=
  C2_too_few_participants extLib0 0 _ (by decide)

/-- C4: whenever `find_optimal_clusters` succeeds, its score list covers
every candidate `k` of `range(2, 9)` in order, the selected `k` is within
`[2, 8]`, its score is maximal over the candidates, and every candidate
achieving the maximal score has a `k` no smaller than the selected one
(Python's `max` returns the first maximiser, so ties break to the smallest
`k`). -/
theorem C4_cluster_selection (ext : ExtLib) (entropy : Nat)
    (X : List (List ℚ)) (bestK : Nat) (scores : List (Nat × ℚ))
    (h : findOptimalClusters ext entropy X 8 = .ok (bestK, scores)) :
    scores.map Prod.fst = [2, 3, 4, 5, 6, 7, 8] ∧
    2 ≤ bestK ∧ bestK ≤ 8 ∧
    ∃ bs : ℚ, (bestK, bs) ∈ scores ∧
      (∀ p ∈ scores, p.2 ≤ bs) ∧
      (∀ p ∈ scores, p.2 = bs → bestK ≤ p.1) := by
  rw [findOptimalClusters, show (8:ℕ) - 1 = 7 from rfl] at h
  cases hm : (List.range' 2 7).mapM (scoreForK ext entropy X) with
  | error e => rw [hm, exceptBind_error] at h; exact absurd h (by simp)
  | ok sc =>
    rw [hm, exceptBind_ok] at h
    match sc, hm, h with
    | [], hm, h => exact absurd h (by simp)
    | a :: t, hm, h =>
      have hinj : ((pyMaxBySnd a t).1, a :: t) = (bestK, scores) := Except.ok.inj h
      have hbk : (pyMaxBySnd a t).1 = bestK := congrArg Prod.fst hinj
      have hsc : a :: t = scores := congrArg Prod.snd hinj
      have hfst : scores.map Prod.fst = [2, 3, 4, 5, 6, 7, 8] := by
        rw [← hsc]
        have := mapM_ok_map_fst
          (fun k y hy => scoreForK_fst ext entropy X k y hy) (List.range' 2 7) _ hm
        rw [this]
        rfl
      have hpw : (a :: t).Pairwise (fun p q => p.1 < q.1) := by
        refine List.pairwise_map.1 ?_
        rw [hsc, hfst]
        decide
      obtain ⟨hmem, hmax, htie⟩ := pyMaxBySnd_spec t a hpw
      have hin : bestK ∈ [2, 3, 4, 5, 6, 7, 8] := by
        rw [← hfst, ← hsc, ← hbk]
        exact List.mem_map_of_mem Prod.fst hmem
      have hrange : 2 ≤ bestK ∧ bestK ≤ 8 := by
        simp only [List.mem_cons, List.not_mem_nil, or_false] at hin
        rcases hin with rfl | rfl | rfl | rfl | rfl | rfl | rfl <;> omega
      refine ⟨hfst, hrange.1, hrange.2, (pyMaxBySnd a t).2, ?_, ?_, ?_⟩
      · rw [← hsc, ← hbk]
        exact hmem
      · intro p hp
        rw [← hsc] at hp
        exact hmax p hp
      · intro p hp hpe
        rw [← hsc] at hp
        rw [← hbk]
        exact htie p hp hpe

/-- Witness for C4: the theorem at a concrete successful run on ten
participants, where every candidate scores 0 and the tie breaks to k = 2. -/
theorem C4_cluster_selection_witness :
    scores0.map Prod.fst = [2, 3, 4, 5, 6, 7, 8] ∧
    2 ≤ 2 ∧ 2 ≤ 8 ∧
    ∃ bs : ℚ, ((2:ℕ), bs) ∈ scores0 ∧
      (∀ p ∈ scores0, p.2 ≤ bs) ∧
      (∀ p ∈ scores0, p.2 = bs → 2 ≤ p.1) :=
  C4_cluster_selection extLib0 0 X10 2 scores0 (by rfl)

/-- C5: for every nonempty labelled feature table, the exported persona
profiles' `size` fields sum to the exported `total_participants`, and the
`percentage` fields sum to exactly 100 (in the `ℚ` model of the float
arithmetic, so the float statement holds within rounding tolerance). -/
theorem C5_sizes_and_percentages (labeled : List (FeatureRow × Nat))
    (h : labeled ≠ []) :
    (((saveResults labeled (createPersonaProfiles labeled)).personas.map
        (fun q => q.2.size)).sum
      = (saveResults labeled (createPersonaProfiles labeled)).total_participants) ∧
    ((saveResults labeled (createPersonaProfiles labeled)).personas.map
        (fun q => q.2.percentage)).sum = 100 := by
  have hsize : ∀ cid : Nat, (mkProfile labeled cid).size
      = (labeled.map Prod.snd).count cid := by
    intro cid
    show ((labeled.filter (fun r => decide (r.2 = cid))).map Prod.fst).length = _
    rw [List.length_map]
    exact length_filter_eq_count labeled cid
  have hn : (labeled.map Prod.snd).length = labeled.length := List.length_map _ _
  constructor
  · show ((((uniqueFirst (labeled.map Prod.snd)).map (mkProfile labeled)).map
        (fun p => (toString p.id, p))).map (fun q => q.2.size)).sum = labeled.length
    rw [List.map_map, List.map_map]
    have hcongr : ((uniqueFirst (labeled.map Prod.snd)).map
          (((fun q : String × Profile => q.2.size) ∘ (fun p => (toString p.id, p)))
            ∘ mkProfile labeled))
        = (uniqueFirst (labeled.map Prod.snd)).map
            (fun cid => (labeled.map Prod.snd).count cid) := by
      refine List.map_congr_left ?_
      intro cid _
      exact hsize cid
    rw [hcongr, sum_count_uniqueFirst, hn]
  · have hne : ((labeled.length : ℚ)) ≠ 0 := by
      have : labeled.length ≠ 0 := fun hc => h (List.length_eq_zero.1 hc)
      exact_mod_cast this
    show ((((uniqueFirst (labeled.map Prod.snd)).map (mkProfile labeled)).map
        (fun p => (toString p.id, p))).map (fun q => q.2.percentage)).sum = 100
    rw [List.map_map, List.map_map]
    have hcongr : ((uniqueFirst (labeled.map Prod.snd)).map
          (((fun q : String × Profile => q.2.percentage) ∘ (fun p => (toString p.id, p)))
            ∘ mkProfile labeled))
        = (uniqueFirst (labeled.map Prod.snd)).map
            (fun cid => (((labeled.map Prod.snd).count cid : ℚ))
              * (100 / (labeled.length : ℚ))) := by
      refine List.map_congr_left ?_
      intro cid _
      show (mkProfile labeled cid).percentage = _
      show (((labeled.filter (fun r => decide (r.2 = cid))).map Prod.fst).length : ℚ)
          / (labeled.length : ℚ) * 100 = _
      rw [List.length_map, length_filter_eq_count]
      ring
    rw [hcongr, List.sum_map_mul_right]
    have hcast : ((uniqueFirst (labeled.map Prod.snd)).map
          (fun cid => (((labeled.map Prod.snd).count cid : ℚ)))).sum
        = ((labeled.length : ℚ)) := by
      have h1 := sum_count_uniqueFirst (labeled.map Prod.snd)
      have h2 : ((((uniqueFirst (labeled.map Prod.snd)).map
            (fun x => (labeled.map Prod.snd).count x)).sum : ℕ) : ℚ)
          = (((labeled.map Prod.snd).length : ℕ) : ℚ) := by
        exact_mod_cast congrArg (fun n : ℕ => (n : ℚ)) h1
      rw [Nat.cast_list_sum, List.map_map] at h2
      rw [hn] at h2
      exact h2
    rw [hcast]
    field_simp

/-- Witness for C5: the theorem at a concrete two-participant table split
into two clusters. -/
theorem C5_sizes_and_percentages_witness :
    (((saveResults [(rowW, 0), (rowW, 1)]
          (createPersonaProfiles [(rowW, 0), (rowW, 1)])).personas.map
        (fun q => q.2.size)).sum
      = (saveResults [(rowW, 0), (rowW, 1)]
          (createPersonaProfiles [(rowW, 0), (rowW, 1)])).total_participants) ∧
    ((saveResults [(rowW, 0), (rowW, 1)]
        (createPersonaProfiles [(rowW, 0), (rowW, 1)])).personas.map
        (fun q => q.2.percentage)).sum = 100 :=
  C5_sizes_and_percentages [(rowW, 0), (rowW, 1)] (by simp)

/-- C8: the whole pipeline is independent of the ambient process randomness:
both clustering call sites pass the literal seed `random_state=42`, so as
long as the clustering library honours an explicit seed (its output ignores
the entropy argument when a seed is given), two runs on identical input
datasets produce equal exported `AnalysisResult`s — and `json.dump` of equal
values writes identical bytes. -/
theorem C8_seeded_determinism (ext : ExtLib)
    (hdet : ∀ e1 e2 k X, ext.kmeans e1 (some 42) k X = ext.kmeans e2 (some 42) k X)
    (e1 e2 : Nat) (rounds : List RoundData) :
    runPipeline ext e1 rounds = runPipeline ext e2 rounds := by
  have hfun : ext.kmeans e1 (some 42) = ext.kmeans e2 (some 42) :=
    funext fun k => funext fun X => hdet e1 e2 k X
  have hkm : kmFit ext e1 (some 42) = kmFit ext e2 (some 42) := by
    funext k X
    simp only [kmFit, hfun]
  have hsc : scoreForK ext e1 = scoreForK ext e2 := by
    funext X k
    simp only [scoreForK, hkm]
  simp only [runPipeline, performClustering, findOptimalClusters, hsc, hkm]

/-- Witness for C8: the theorem at a concrete library instantiation whose
`kmeans` ignores the entropy argument, on a concrete input, under two
different ambient entropies. -/
theorem C8_seeded_determinism_witness :
    runPipeline extLib0 0 [roundOne] = runPipeline extLib0 1 [roundOne] :=
  C8_seeded_determinism extLib0 (fun _ _ _ _ => rfl) 0 1 [roundOne]
